import Mathlib

/-!
# go-restful-api-example: the Gopher handlers of `main.go`

A shallow embedding of the six gin handlers registered by `main` (`CreateGopher`,
`GetGophers`, `GetGopherByID`, `UpdateGopher`, `DeleteGopher`, `HealthCheck`),
together with the part of gin's `Context` / `responseWriter` and of `encoding/json`
that the handlers exercise, followed by theorems about what the handlers respond.

The program declares no package-level variable: a handler's only argument is the
`*gin.Context` of the request being served, so nothing is carried from one request to
the next.
-/

namespace GoRestful

/-! ## `net/http` status constants -/

def StatusOK : Nat := 200
def StatusCreated : Nat := 201
def StatusNoContent : Nat := 204
def StatusNotModified : Nat := 304
def StatusBadRequest : Nat := 400
def StatusNotFound : Nat := 404

/-! ## Data model (`main.go`, lines 52-56) -/

/-- Gopher represents the model for a gopher: `type Gopher struct { ID, Name string }`. -/
structure Gopher where
  ID : String
  Name : String
deriving DecidableEq, Repr

/-- The zero value `Gopher{}`: both fields are the empty string. -/
def Gopher.zero : Gopher := { ID := "", Name := "" }

/-! ## `encoding/json`: the values the handlers marshal -/

/-- JSON documents produced by `json.Marshal` for the Go values the handlers pass to
`c.JSON`: strings, objects (structs and maps), arrays (non-nil slices) and `null`
(nil slices). -/
inductive Value where
  | null : Value
  | str : String → Value
  | array : List Value → Value
  | object : List (String × Value) → Value

/-- A Go slice `[]T`: either the nil slice or a slice with the given elements. The
composite literal `[]T{}` is `Slice.lit []`, which is empty but not nil. -/
inductive Slice (α : Type) where
  | nil : Slice α
  | lit : List α → Slice α

/-- Lower-case hexadecimal digit, `hex[n]` of `encoding/json`. -/
def hexDigit (n : Nat) : Char :=
  if n < 10 then Char.ofNat (48 + n) else Char.ofNat (87 + n)

/-- Escape one character the way `json.Marshal` does (HTML escaping on): quote and
backslash get a backslash, control characters a short or a `u00xx` escape, the characters
`<`, `>`, `&` and U+2028, U+2029 a `uxxxx` escape; everything else is copied. -/
def escapeChar (c : Char) : List Char :=
  let n := c.toNat
  let bs := Char.ofNat 92
  if n = 34 then [bs, Char.ofNat 34]
  else if n = 92 then [bs, bs]
  else if n = 8 then [bs, Char.ofNat 98]
  else if n = 12 then [bs, Char.ofNat 102]
  else if n = 10 then [bs, Char.ofNat 110]
  else if n = 13 then [bs, Char.ofNat 114]
  else if n = 9 then [bs, Char.ofNat 116]
  else if n < 32 ∨ n = 60 ∨ n = 62 ∨ n = 38 then
    [bs, Char.ofNat 117, Char.ofNat 48, Char.ofNat 48, hexDigit (n / 16), hexDigit (n % 16)]
  else if n = 8232 ∨ n = 8233 then
    [bs, Char.ofNat 117, Char.ofNat 50, Char.ofNat 48, Char.ofNat 50, hexDigit (n % 16)]
  else [c]

/-- A JSON string literal: the escaped characters between double quotes. -/
def quote (s : String) : List Char :=
  Char.ofNat 34 :: (s.data.flatMap escapeChar ++ [Char.ofNat 34])

mutual
/-- The characters `json.Marshal` emits for a document (compact, no whitespace). -/
def Value.chars : Value → List Char
  | .null => "null".data
  | .str s => quote s
  | .array xs => Char.ofNat 91 :: (Value.elemChars xs ++ [Char.ofNat 93])
  | .object kvs => Char.ofNat 123 :: (Value.memberChars kvs ++ [Char.ofNat 125])
/-- Array elements, separated by commas. -/
def Value.elemChars : List Value → List Char
  | [] => []
  | [v] => Value.chars v
  | v :: w :: rest => Value.chars v ++ Char.ofNat 44 :: Value.elemChars (w :: rest)
/-- Object members `"key":value`, separated by commas. -/
def Value.memberChars : List (String × Value) → List Char
  | [] => []
  | [(k, v)] => quote k ++ Char.ofNat 58 :: Value.chars v
  | (k, v) :: m :: rest =>
    quote k ++ Char.ofNat 58 :: (Value.chars v ++ Char.ofNat 44 :: Value.memberChars (m :: rest))
end

/-- The bytes of `json.Marshal(v)`, as a string. -/
def Value.marshal (v : Value) : String := String.mk (Value.chars v)

/-- Marshalling of a `Gopher`: the fields in declaration order under their `json` tags. -/
def Gopher.toValue (g : Gopher) : Value :=
  .object [("id", .str g.ID), ("name", .str g.Name)]

/-- Marshalling of a slice: a nil slice is `null`, any other slice is an array. -/
def Slice.toValue {α : Type} (f : α → Value) : Slice α → Value
  | .nil => .null
  | .lit xs => .array (xs.map f)

/-- The map literal type `gin.H`, that is `map[string]any`, as its entries. -/
abbrev H := List (String × Value)

/-- Insert an entry in key order. -/
def insertMember (e : String × Value) : List (String × Value) → List (String × Value)
  | [] => [e]
  | m :: rest => if e.1 < m.1 then e :: m :: rest else m :: insertMember e rest

/-- Marshalling of a map: an object whose members are sorted by key. -/
def H.toValue (h : H) : Value :=
  .object (h.foldr insertMember [])

/-! ## gin: `responseWriter`, `Context` and `Render` -/

/-- Response headers, as key and value pairs. -/
abbrev Header := List (String × String)

/-- The value `jsonContentType` of gin's `render` package. -/
def jsonContentType : String := "application/json; charset=utf-8"

/-- What gin's `responseWriter` holds: the pending `status`, the `size` written so far
(`-1`, gin's `noWritten`, until the header has been sent), the pending `header`, and what
has reached the connection: `sent`, the status line and header once sent, and `body`. -/
structure ResponseWriter where
  status : Nat
  size : Int
  header : Header
  sent : Option (Nat × Header)
  body : String
deriving DecidableEq, Repr

/-- The writer a request starts with (`responseWriter.reset`): status 200, nothing written. -/
def ResponseWriter.reset : ResponseWriter :=
  { status := StatusOK, size := -1, header := [], sent := none, body := "" }

/-- Written reports whether the header has been sent: `w.size != noWritten`. -/
def ResponseWriter.Written (w : ResponseWriter) : Bool := w.size != -1

/-- WriteHeader records the status code; it is ignored once the header has been sent. -/
def ResponseWriter.WriteHeader (w : ResponseWriter) (code : Nat) : ResponseWriter :=
  if 0 < code ∧ w.status ≠ code then
    if w.Written then w else { w with status := code }
  else w

/-- WriteHeaderNow sends the status line and the header, unless already sent. -/
def ResponseWriter.WriteHeaderNow (w : ResponseWriter) : ResponseWriter :=
  if w.Written then w else { w with size := 0, sent := some (w.status, w.header) }

/-- Write sends the header if needed, then appends `data` to the body. -/
def ResponseWriter.Write (w : ResponseWriter) (data : String) : ResponseWriter :=
  let w1 := w.WriteHeaderNow
  { w1 with body := w1.body ++ data, size := w1.size + data.utf8ByteSize }

/-- Set `Content-Type` unless the header already has one (`writeContentType`). -/
def ResponseWriter.writeContentType (w : ResponseWriter) (value : String) : ResponseWriter :=
  if w.header.any (fun kv => kv.1 == "Content-Type") then w
  else { w with header := w.header ++ [("Content-Type", value)] }

/-- The request as the handlers can see it: method, URL path and body. -/
structure Request where
  Method : String
  Path : String
  Body : String
deriving DecidableEq, Repr

/-- One URL parameter matched by the router (`gin.Param`). -/
structure Param where
  Key : String
  Value : String
deriving DecidableEq, Repr

/-- The part of `gin.Context` a handler can reach: request, path parameters, writer. -/
structure Context where
  Request : Request
  Params : List Param
  Writer : ResponseWriter
deriving DecidableEq, Repr

/-- A gin handler, `func(c *gin.Context)`, as the change it makes to the context. -/
abbrev HandlerFunc := Context → Context

/-- Status sets the HTTP response code: `c.Writer.WriteHeader(code)`. -/
def Context.Status (c : Context) (code : Nat) : Context :=
  { c with Writer := c.Writer.WriteHeader code }

/-- Statuses for which no body may be sent: 1xx, 204 and 304 (`bodyAllowedForStatus`). -/
def bodyAllowedForStatus (status : Nat) : Bool :=
  if 100 ≤ status ∧ status ≤ 199 then false
  else if status = StatusNoContent then false
  else if status = StatusNotModified then false
  else true

/-- JSON serialises `obj` into the response body and sets the Content-Type
(`c.Render(code, render.JSON{Data: obj})`). -/
def Context.JSON (c : Context) (code : Nat) (obj : Value) : Context :=
  let c1 := c.Status code
  if bodyAllowedForStatus code then
    { c1 with Writer := (c1.Writer.writeContentType jsonContentType).Write obj.marshal }
  else
    { c1 with Writer := (c1.Writer.writeContentType jsonContentType).WriteHeaderNow }

/-! ## The handlers (`main.go`, lines 58-134) -/

/-- CreateGopher: `c.JSON(http.StatusCreated, Gopher{})`. -/
def CreateGopher : HandlerFunc := fun c =>
  c.JSON StatusCreated Gopher.zero.toValue

/-- GetGophers: `c.JSON(http.StatusOK, []Gopher{})`. -/
def GetGophers : HandlerFunc := fun c =>
  c.JSON StatusOK (Slice.toValue Gopher.toValue (Slice.lit []))

/-- GetGopherByID: `c.JSON(http.StatusOK, Gopher{})`. -/
def GetGopherByID : HandlerFunc := fun c =>
  c.JSON StatusOK Gopher.zero.toValue

/-- UpdateGopher: `c.JSON(http.StatusOK, Gopher{})`. -/
def UpdateGopher : HandlerFunc := fun c =>
  c.JSON StatusOK Gopher.zero.toValue

/-- DeleteGopher: `c.Status(http.StatusNoContent)`. -/
def DeleteGopher : HandlerFunc := fun c =>
  c.Status StatusNoContent

/-- HealthCheck: `c.JSON(http.StatusOK, gin.H{"status": "ok"})`. -/
def HealthCheck : HandlerFunc := fun c =>
  c.JSON StatusOK (H.toValue [("status", .str "ok")])

/-! ## The engine: routing (`main`, lines 36-45) and serving -/

/-- The response that reached the client: status code, the header entries the handler set
(those `net/http` adds on its own, such as `Date` and `Content-Length`, are left out) and
the body. -/
structure Response where
  StatusCode : Nat
  Header : Header
  Body : String
deriving DecidableEq, Repr

/-- What the writer has put on the connection, once the header has been sent. -/
def ResponseWriter.response (w : ResponseWriter) : Option Response :=
  w.sent.map (fun s => { StatusCode := s.1, Header := s.2, Body := w.body })

/-- Serve one request with one handler, as the engine's `handleHTTPRequest` does once the
route is found: a reset writer, the handler, then `WriteHeaderNow`. The middleware of
`gin.Default()` (logger, recovery) leaves the writer alone when the handler returns. -/
def serve (h : HandlerFunc) (req : Request) (ps : List Param) : Option Response :=
  (h { Request := req, Params := ps, Writer := ResponseWriter.reset }).Writer.WriteHeaderNow.response

/-- The six handlers that `main` registers under `/health` and `/gophers`. -/
inductive Endpoint where
  | createGopher
  | getGophers
  | getGopherByID
  | updateGopher
  | deleteGopher
  | healthCheck
deriving DecidableEq, Repr

/-- The handler function behind each endpoint. -/
def Endpoint.handler : Endpoint → HandlerFunc
  | .createGopher => CreateGopher
  | .getGophers => GetGophers
  | .getGopherByID => GetGopherByID
  | .updateGopher => UpdateGopher
  | .deleteGopher => DeleteGopher
  | .healthCheck => HealthCheck

/-- The route table of `main`: method, path pattern, endpoint. The redirect on `/` and the
swagger files under `/swagger/` are served by other packages and are left out. -/
def routes : List (String × String × Endpoint) :=
  [ ("GET", "/health", .healthCheck),
    ("POST", "/gophers", .createGopher),
    ("GET", "/gophers", .getGophers),
    ("GET", "/gophers/:id", .getGopherByID),
    ("PUT", "/gophers/:id", .updateGopher),
    ("DELETE", "/gophers/:id", .deleteGopher) ]

/-- Split a path at every `/`. -/
def splitPath : List Char → List (List Char)
  | [] => [[]]
  | c :: cs =>
    if c = Char.ofNat 47 then [] :: splitPath cs
    else match splitPath cs with
      | [] => [[c]]
      | seg :: segs => (c :: seg) :: segs

/-- Match path segments against pattern segments: a pattern segment `:name` takes any
non-empty segment and binds it, any other segment must be equal. -/
def matchSegments : List (List Char) → List (List Char) → Option (List Param)
  | [], [] => some []
  | pat :: pats, seg :: segs =>
    match pat with
    | c :: name =>
      if c = Char.ofNat 58 then
        if seg = [] then none
        else (matchSegments pats segs).map
          (fun ps => { Key := String.mk name, Value := String.mk seg } :: ps)
      else if pat = seg then matchSegments pats segs else none
    | [] => if seg = [] then matchSegments pats segs else none
  | _, _ => none

/-- The first registered route with the request's method whose pattern takes its path. -/
def findRoute (req : Request) : List (String × String × Endpoint) → Option (Endpoint × List Param)
  | [] => none
  | (method, pattern, e) :: rest =>
    if method = req.Method then
      match matchSegments (splitPath pattern.data) (splitPath req.Path.data) with
      | some ps => some (e, ps)
      | none => findRoute req rest
    else findRoute req rest

/-- ServeHTTP for the six endpoints: route the request and serve it; `none` when the
request is dispatched to none of them (the engine then answers on its own, with a redirect
or a 404, and calls no handler of `main.go`). -/
def ServeHTTP (req : Request) : Option Response :=
  match findRoute req routes with
  | some (e, ps) => serve e.handler req ps
  | none => none

/-- One call that reached a handler: the endpoint, the request and its path parameters. -/
structure Call where
  endpoint : Endpoint
  req : Request
  params : List Param
deriving DecidableEq, Repr

/-- The response to one call. -/
def Call.response (c : Call) : Option Response :=
  serve c.endpoint.handler c.req c.params

/-- The responses to a sequence of calls served in order by one process. Each call is
served on a reset context, and the program has no variable that outlives a call. -/
def runAll : List Call → List (Option Response)
  | [] => []
  | c :: rest => c.response :: runAll rest

/-- The response to call `c` when the process has served the calls `history` before. -/
def responseAfter (history : List Call) (c : Call) : Option Response :=
  (runAll (history ++ [c])).getLast?.join

/-! ## Clients: the requests the properties talk about -/

/-- A create payload `{id?, name}`: the id may be omitted. -/
structure CreatePayload where
  id : Option String
  name : String
deriving DecidableEq, Repr

/-- The JSON body a client sends for a create payload. -/
def CreatePayload.body (p : CreatePayload) : String :=
  match p.id with
  | none => Value.marshal (.object [("name", .str p.name)])
  | some i => Value.marshal (.object [("id", .str i), ("name", .str p.name)])

/-- The call `POST /gophers` with the payload as body. -/
def createCall (p : CreatePayload) : Call :=
  { endpoint := .createGopher, req := { Method := "POST", Path := "/gophers", Body := p.body },
    params := [] }

/-- The call `GET /gophers`. -/
def listCall : Call :=
  { endpoint := .getGophers, req := { Method := "GET", Path := "/gophers", Body := "" },
    params := [] }

/-- The call `GET /gophers/{id}`. -/
def getCall (id : String) : Call :=
  { endpoint := .getGopherByID, req := { Method := "GET", Path := "/gophers/" ++ id, Body := "" },
    params := [{ Key := "id", Value := id }] }

/-- The call `PUT /gophers/{id}` with the body `{"name": name}`. -/
def updateCall (id name : String) : Call :=
  { endpoint := .updateGopher,
    req := { Method := "PUT", Path := "/gophers/" ++ id,
             Body := Value.marshal (.object [("name", .str name)]) },
    params := [{ Key := "id", Value := id }] }

/-- The call `DELETE /gophers/{id}`. -/
def deleteCall (id : String) : Call :=
  { endpoint := .deleteGopher, req := { Method := "DELETE", Path := "/gophers/" ++ id, Body := "" },
    params := [{ Key := "id", Value := id }] }

/-- The call `GET /health`. -/
def healthCall : Call :=
  { endpoint := .healthCheck, req := { Method := "GET", Path := "/health", Body := "" },
    params := [] }

/-- The response `c.JSON(code, v)` produces on a reset writer when a body is allowed. -/
def jsonResponse (code : Nat) (v : Value) : Response :=
  { StatusCode := code, Header := [("Content-Type", jsonContentType)], Body := v.marshal }

/-! ## What each handler responds on a reset context -/

theorem serve_CreateGopher (req : Request) (ps : List Param) :
    serve CreateGopher req ps = some (jsonResponse 201 Gopher.zero.toValue) := rfl

theorem serve_GetGophers (req : Request) (ps : List Param) :
    serve GetGophers req ps = some (jsonResponse 200 (.array [])) := rfl

theorem serve_GetGopherByID (req : Request) (ps : List Param) :
    serve GetGopherByID req ps = some (jsonResponse 200 Gopher.zero.toValue) := rfl

theorem serve_UpdateGopher (req : Request) (ps : List Param) :
    serve UpdateGopher req ps = some (jsonResponse 200 Gopher.zero.toValue) := rfl

theorem serve_DeleteGopher (req : Request) (ps : List Param) :
    serve DeleteGopher req ps = some { StatusCode := 204, Header := [], Body := "" } := rfl

theorem serve_HealthCheck (req : Request) (ps : List Param) :
    serve HealthCheck req ps = some (jsonResponse 200 (.object [("status", .str "ok")])) := rfl

/-! ## Sequences of calls -/

theorem runAll_append (a b : List Call) : runAll (a ++ b) = runAll a ++ runAll b := by
  induction a with
  | nil => rfl
  | cons c rest ih => simp [runAll, ih]

/-- The calls served before do not change the response to a call. -/
theorem responseAfter_eq (history : List Call) (c : Call) :
    responseAfter history c = c.response := by
  simp [responseAfter, runAll_append, runAll]

/-- A call changes no later response: the trace splits at every call. -/
theorem runAll_insert (history later : List Call) (c : Call) :
    runAll (history ++ c :: later) = runAll history ++ c.response :: runAll later := by
  simp [runAll_append, runAll]

theorem runAll_createCalls (ps : List CreatePayload) :
    runAll (ps.map createCall)
      = List.replicate ps.length (some (jsonResponse 201 Gopher.zero.toValue)) := by
  induction ps with
  | nil => rfl
  | cons p rest ih =>
    simp only [List.map_cons, runAll, List.length_cons, List.replicate_succ, ih]
    rfl

/-! ## Reading a response back: which value a body stands for -/

theorem escapeChar_head (c : Char) :
    ∃ d rest, escapeChar c = d :: rest ∧ d ≠ Char.ofNat 34 := by
  unfold escapeChar
  simp only
  split_ifs with h1 h2 h3 h4 h5 h6 h7 h8 h9
  all_goals first
    | exact ⟨_, _, rfl, by decide⟩
    | exact ⟨c, [], rfl, fun hc => h1 (by rw [hc]; rfl)⟩

theorem flatMap_escape_quote (cs rest tail : List Char)
    (h : cs.flatMap escapeChar ++ Char.ofNat 34 :: rest = Char.ofNat 34 :: tail) :
    cs = [] := by
  cases cs with
  | nil => rfl
  | cons c cs =>
    obtain ⟨d, r, hd, hne⟩ := escapeChar_head c
    simp only [List.flatMap_cons, hd, List.cons_append, List.cons.injEq] at h
    exact absurd h.1 hne

theorem quote_append_eq_empty (s : String) (r1 r2 : List Char)
    (h : quote s ++ r1 = quote "" ++ r2) : s = "" ∧ r1 = r2 := by
  obtain ⟨cs⟩ := s
  simp only [quote, List.cons_append, List.append_assoc, List.singleton_append,
    List.cons.injEq, true_and] at h
  have hcs : cs = [] := flatMap_escape_quote cs r1 r2 h
  subst hcs
  simp only [List.flatMap_nil, List.nil_append, List.cons.injEq, true_and] at h
  exact ⟨rfl, h⟩

/-- Only the zero Gopher marshals to the bytes of the zero Gopher. -/
theorem Gopher.marshal_zero_inj (g : Gopher)
    (h : g.toValue.marshal = Gopher.zero.toValue.marshal) : g = Gopher.zero := by
  obtain ⟨i, n⟩ := g
  have h2 := congrArg String.data h
  simp only [Value.marshal, Gopher.toValue, Gopher.zero, Value.chars, Value.memberChars,
    List.cons_append, List.append_assoc, List.cons.injEq, true_and,
    List.append_cancel_left_eq] at h2
  obtain ⟨hi, h3⟩ := quote_append_eq_empty i _ _ h2
  simp only [List.cons.injEq, true_and, List.append_cancel_left_eq] at h3
  obtain ⟨hn, _⟩ := quote_append_eq_empty n _ _ h3
  subst hi
  subst hn
  rfl

/-- A response is the JSON response of Gopher `g` exactly when `g` is the zero Gopher. -/
theorem jsonResponse_gopher_iff (code : Nat) (g : Gopher) :
    some (jsonResponse code Gopher.zero.toValue) = some (jsonResponse code g.toValue)
      ↔ g = Gopher.zero := by
  constructor
  · intro h
    have hb : (jsonResponse code Gopher.zero.toValue).Body = (jsonResponse code g.toValue).Body :=
      congrArg Response.Body (Option.some.inj h)
    exact Gopher.marshal_zero_inj g hb.symm
  · intro h
    rw [h]

theorem Value.chars_ne_nil (v : Value) : Value.chars v ≠ [] := by
  cases v with
  | null => simp [Value.chars]
  | str s => simp [Value.chars, quote]
  | array xs => simp [Value.chars]
  | object kvs => simp [Value.chars]

theorem Value.elemChars_eq_nil (xs : List Value) (h : Value.elemChars xs = []) : xs = [] := by
  match xs with
  | [] => rfl
  | [v] => exact absurd (by simpa [Value.elemChars] using h) (Value.chars_ne_nil v)
  | v :: w :: rest =>
    simp only [Value.elemChars, List.append_eq_nil] at h
    exact absurd h.1 (Value.chars_ne_nil v)

/-- Only the empty array marshals to `[]`. -/
theorem Value.marshal_array_iff (xs : List Value) :
    Value.marshal (.array xs) = "[]" ↔ xs = [] := by
  constructor
  · intro h
    have h2 := congrArg String.data h
    have h3 : Value.elemChars xs ++ [Char.ofNat 93] = [] ++ [Char.ofNat 93] := by
      simpa [Value.marshal, Value.chars] using h2
    exact Value.elemChars_eq_nil xs (List.append_cancel_right h3)
  · intro h
    rw [h]
    rfl

/-! ## The properties of the handlers -/

/-- C1: for every request, and whatever calls the process has served before, HealthCheck
responds with HTTP status 200 and a JSON body that is exactly the object with the single
key "status" mapped to the string "ok". -/
theorem HealthCheck_always_ok (history : List Call) (req : Request) (ps : List Param) :
    responseAfter history { endpoint := .healthCheck, req := req, params := ps }
      = some { StatusCode := 200, Header := [("Content-Type", jsonContentType)],
               Body := "\x7b\"status\":\"ok\"\x7d" } ∧
    Value.marshal (.object [("status", .str "ok")]) = "\x7b\"status\":\"ok\"\x7d" := by
  rw [responseAfter_eq]
  exact ⟨rfl, rfl⟩

/-- C2 fails as stated: `POST /gophers` with the non-empty name "Gopher" is routed to
CreateGopher and answered 201 with the Gopher of id "" and name "". The following request
for that id, `GET /gophers/`, is not dispatched to GetGopherByID, so no handler answers it
with 200 and a Gopher; and a request that is dispatched, `GET /gophers/1`, is answered 200
with the zero Gopher, never with a Gopher named "Gopher". -/
theorem create_then_get_drops_name :
    (CreatePayload.mk none "Gopher").name ≠ "" ∧
    ServeHTTP (createCall (CreatePayload.mk none "Gopher")).req
      = (createCall (CreatePayload.mk none "Gopher")).response ∧
    responseAfter [] (createCall (CreatePayload.mk none "Gopher"))
      = some (jsonResponse 201 (Gopher.mk "" "").toValue) ∧
    findRoute (getCall (Gopher.mk "" "").ID).req routes = none ∧
    ServeHTTP (getCall (Gopher.mk "" "").ID).req = none ∧
    ServeHTTP (getCall (Gopher.mk "" "").ID).req
      ≠ some (jsonResponse 200 (Gopher.mk (Gopher.mk "" "").ID "Gopher").toValue) ∧
    ServeHTTP (getCall "1").req = (getCall "1").response ∧
    responseAfter [createCall (CreatePayload.mk none "Gopher")] (getCall "1")
      = some (jsonResponse 200 (Gopher.mk "" "").toValue) ∧
    ¬ (∃ g : Gopher, g.Name = (CreatePayload.mk none "Gopher").name ∧
        responseAfter [createCall (CreatePayload.mk none "Gopher")] (getCall "1")
          = some (jsonResponse 200 g.toValue)) := by
  refine ⟨by decide, by decide, by decide, by decide, by decide, by decide, by decide,
    by decide, ?_⟩
  rintro ⟨g, hname, hg⟩
  rw [responseAfter_eq] at hg
  have hz : g = Gopher.zero := (jsonResponse_gopher_iff 200 g).mp hg
  rw [hz] at hname
  exact absurd hname (by decide)

/-- C2 (amended): for every create payload, `POST /gophers` is routed to CreateGopher,
which responds 201, and the Gopher it returns is the zero value (id "" and name ""). The
request for that id, `GET /gophers/`, is not dispatched to GetGopherByID. For every id
whose request `GET /gophers/{id}` is dispatched to GetGopherByID (such an id is not the
returned one), the following GetGopherByID responds 200 with a Gopher equal to the
returned one: the empty id and the empty name, whatever name the payload gave. -/
theorem create_then_get_returns_zero (history : List Call) (p : CreatePayload) (id : String)
    (hroute : findRoute (getCall id).req routes
      = some (Endpoint.getGopherByID, (getCall id).params)) :
    ServeHTTP (createCall p).req = (createCall p).response ∧
    (∀ g : Gopher, responseAfter history (createCall p) = some (jsonResponse 201 g.toValue)
      ↔ g = Gopher.zero) ∧
    findRoute (getCall Gopher.zero.ID).req routes = none ∧
    id ≠ Gopher.zero.ID ∧
    ServeHTTP (getCall id).req = (getCall id).response ∧
    (∀ g : Gopher,
      responseAfter (history ++ [createCall p]) (getCall id) = some (jsonResponse 200 g.toValue)
      ↔ g = Gopher.zero) := by
  refine ⟨rfl, ?_, by decide, ?_, ?_, ?_⟩
  · intro g
    rw [responseAfter_eq]
    exact jsonResponse_gopher_iff 201 g
  · intro hid
    rw [hid] at hroute
    exact absurd hroute (by decide)
  · unfold ServeHTTP
    rw [hroute]
    rfl
  · intro g
    rw [responseAfter_eq]
    exact jsonResponse_gopher_iff 200 g

/-- C2, at a concrete input: `GET /gophers/1` is dispatched to GetGopherByID, and after
creating the payload named "Gopher" it is answered 200 with the zero Gopher. -/
theorem create_then_get_returns_zero_witness :
    findRoute (getCall "1").req routes
      = some (Endpoint.getGopherByID, (getCall "1").params) ∧
    ServeHTTP (getCall "1").req = (getCall "1").response ∧
    (responseAfter ([] ++ [createCall (CreatePayload.mk none "Gopher")]) (getCall "1")
      = some (jsonResponse 200 Gopher.zero.toValue)) :=
  ⟨by decide,
   (create_then_get_returns_zero [] (CreatePayload.mk none "Gopher") "1" (by decide)).2.2.2.2.1,
   ((create_then_get_returns_zero [] (CreatePayload.mk none "Gopher") "1"
      (by decide)).2.2.2.2.2 Gopher.zero).mpr rfl⟩

/-- C3 fails as stated: `DELETE /gophers/1` succeeds with 204, and the following
`GET /gophers/1` responds with status 200, not 404. -/
theorem delete_then_get_is_200 :
    ServeHTTP (deleteCall "1").req = (deleteCall "1").response ∧
    ServeHTTP (getCall "1").req = (getCall "1").response ∧
    responseAfter [] (deleteCall "1") = some { StatusCode := 204, Header := [], Body := "" } ∧
    (responseAfter [deleteCall "1"] (getCall "1")).map Response.StatusCode = some 200 ∧
    (responseAfter [deleteCall "1"] (getCall "1")).map Response.StatusCode
      ≠ some StatusNotFound := by
  decide

/-- C3 (amended): for every id, DeleteGopher(id) succeeds with 204, and a following
GetGopherByID(id) responds with HTTP 200 and the zero Gopher, not with 404. -/
theorem delete_then_get_returns_zero (history : List Call) (id : String) :
    responseAfter history (deleteCall id)
      = some { StatusCode := 204, Header := [], Body := "" } ∧
    responseAfter (history ++ [deleteCall id]) (getCall id)
      = some (jsonResponse 200 Gopher.zero.toValue) ∧
    (responseAfter (history ++ [deleteCall id]) (getCall id)).map Response.StatusCode
      ≠ some StatusNotFound := by
  simp only [responseAfter_eq]
  refine ⟨rfl, rfl, ?_⟩
  show (some 200 : Option Nat) ≠ some StatusNotFound
  decide

/-- C4 fails as stated: `POST /gophers` with the payload whose name is the empty string
responds with status 201, not 400. -/
theorem create_empty_name_is_201 :
    (CreatePayload.mk none "").name = "" ∧
    ServeHTTP (createCall (CreatePayload.mk none "")).req
      = (createCall (CreatePayload.mk none "")).response ∧
    (responseAfter [] (createCall (CreatePayload.mk none ""))).map Response.StatusCode
      = some 201 ∧
    (responseAfter [] (createCall (CreatePayload.mk none ""))).map Response.StatusCode
      ≠ some StatusBadRequest := by
  decide

/-- C4 (amended): for every create payload whose name is the empty string, CreateGopher
responds with HTTP 201 and the zero Gopher, not with 400, and stores nothing: the response
to every later call is what it would have been without the create. -/
theorem create_empty_name_returns_zero (history : List Call) (id : Option String) :
    responseAfter history (createCall { id := id, name := "" })
      = some (jsonResponse 201 Gopher.zero.toValue) ∧
    (responseAfter history (createCall { id := id, name := "" })).map Response.StatusCode
      ≠ some StatusBadRequest ∧
    (∀ c : Call,
      responseAfter (history ++ [createCall { id := id, name := "" }]) c
        = responseAfter history c) ∧
    (∀ later : List Call,
      runAll (history ++ createCall { id := id, name := "" } :: later)
        = runAll history ++ (createCall { id := id, name := "" }).response :: runAll later) := by
  refine ⟨?_, ?_, ?_, ?_⟩
  · rw [responseAfter_eq]; rfl
  · rw [responseAfter_eq]
    show (some 201 : Option Nat) ≠ some StatusBadRequest
    decide
  · intro c
    rw [responseAfter_eq, responseAfter_eq]
  · intro later
    exact runAll_insert history later _

/-- C5 fails as stated: after one successful create on a fresh process (N = 1), GetGophers
responds 200 with the empty array, not with the one-entry array of the created Gopher. -/
theorem list_after_one_create_is_empty :
    runAll [createCall (CreatePayload.mk none "Gopher")]
      = [some (jsonResponse 201 (Gopher.mk "" "").toValue)] ∧
    responseAfter [createCall (CreatePayload.mk none "Gopher")] listCall
      = some (jsonResponse 200 (.array [])) ∧
    responseAfter [createCall (CreatePayload.mk none "Gopher")] listCall
      ≠ some (jsonResponse 200 (.array [(Gopher.mk "" "").toValue])) ∧
    ¬ (∃ entries : List Value, entries.length = 1 ∧
        responseAfter [createCall (CreatePayload.mk none "Gopher")] listCall
          = some (jsonResponse 200 (.array entries))) := by
  refine ⟨by decide, by decide, by decide, ?_⟩
  rintro ⟨entries, hlen, h⟩
  rw [responseAfter_eq] at h
  have hb : (jsonResponse 200 (.array [])).Body = (jsonResponse 200 (.array entries)).Body :=
    congrArg Response.Body (Option.some.inj h)
  have he : entries = [] := (Value.marshal_array_iff entries).mp hb.symm
  rw [he] at hlen
  exact absurd hlen (by decide)

/-- C5 (amended): for every N and every sequence of N CreateGopher calls on a fresh
process, every create responds 201 with the zero Gopher, and a following GetGophers
returns HTTP 200 with an array of exactly 0 entries, the empty array, whatever N. -/
theorem list_after_creates_is_empty (ps : List CreatePayload) :
    runAll (ps.map createCall)
      = List.replicate ps.length (some (jsonResponse 201 Gopher.zero.toValue)) ∧
    (∀ entries : List Value,
      responseAfter (ps.map createCall) listCall = some (jsonResponse 200 (.array entries))
      ↔ entries = []) := by
  refine ⟨runAll_createCalls ps, ?_⟩
  intro entries
  rw [responseAfter_eq]
  constructor
  · intro h
    have hb : (jsonResponse 200 (.array [])).Body = (jsonResponse 200 (.array entries)).Body :=
      congrArg Response.Body (Option.some.inj h)
    exact (Value.marshal_array_iff entries).mp hb.symm
  · intro h
    rw [h]
    rfl

/-- C6 fails as stated: on a fresh process, where no Gopher is stored, `PUT /gophers/1`
responds with status 200, not 404. -/
theorem update_missing_is_200 :
    ServeHTTP (updateCall "1" "Gopher").req = (updateCall "1" "Gopher").response ∧
    (responseAfter [] (updateCall "1" "Gopher")).map Response.StatusCode = some 200 ∧
    (responseAfter [] (updateCall "1" "Gopher")).map Response.StatusCode
      ≠ some StatusNotFound := by
  decide

/-- C6 (amended): for every id (none matches a stored Gopher, the program stores none) and
every update payload, UpdateGopher responds with HTTP 200 and the zero Gopher, not 404. -/
theorem update_returns_zero (history : List Call) (req : Request) (ps : List Param) :
    responseAfter history { endpoint := .updateGopher, req := req, params := ps }
      = some (jsonResponse 200 Gopher.zero.toValue) ∧
    (responseAfter history { endpoint := .updateGopher, req := req, params := ps }).map
      Response.StatusCode ≠ some StatusNotFound := by
  rw [responseAfter_eq]
  refine ⟨rfl, ?_⟩
  show (some 200 : Option Nat) ≠ some StatusNotFound
  decide

/-- C7 fails as stated: two creates whose payloads omit the id both respond 201 with the
zero Gopher, whose id is the empty string, so the id returned is empty and is the same
in both; no Gopher with a non-empty id is returned. -/
theorem create_without_id_returns_empty_id :
    ((CreatePayload.mk none "Gopher").id = none ∧ (CreatePayload.mk none "Other").id = none) ∧
    runAll [createCall (CreatePayload.mk none "Gopher"), createCall (CreatePayload.mk none "Other")]
      = [some (jsonResponse 201 (Gopher.mk "" "").toValue),
         some (jsonResponse 201 (Gopher.mk "" "").toValue)] ∧
    (Gopher.mk "" "").ID = "" ∧
    ¬ (∃ g : Gopher,
        responseAfter [] (createCall (CreatePayload.mk none "Gopher"))
          = some (jsonResponse 201 g.toValue) ∧ g.ID ≠ "") := by
  refine ⟨by decide, by decide, by decide, ?_⟩
  rintro ⟨g, hg, hne⟩
  rw [responseAfter_eq] at hg
  have hz : g = Gopher.zero := (jsonResponse_gopher_iff 201 g).mp hg
  rw [hz] at hne
  exact hne rfl

/-- C7 (amended): for every create payload that omits the id, the Gopher returned by
CreateGopher with HTTP 201 is the zero Gopher, whose id is the empty string, and two such
creates return the same, empty, id. -/
theorem create_without_id_returns_zero (h1 h2 : List Call) (name1 name2 : String) :
    (∀ g : Gopher,
      responseAfter h1 (createCall { id := none, name := name1 })
        = some (jsonResponse 201 g.toValue) ↔ g = Gopher.zero) ∧
    (∀ g : Gopher,
      responseAfter h2 (createCall { id := none, name := name2 })
        = some (jsonResponse 201 g.toValue) ↔ g = Gopher.zero) ∧
    Gopher.zero.ID = "" := by
  simp only [responseAfter_eq]
  exact ⟨jsonResponse_gopher_iff 201, jsonResponse_gopher_iff 201, rfl⟩

/-- C8: for every request, and whatever calls were served before, DeleteGopher succeeds
and its response has HTTP status 204 and an empty body; the handler writes no bytes: on
return the writer's body is empty and nothing has been written. -/
theorem DeleteGopher_no_content (history : List Call) (req : Request) (ps : List Param) :
    responseAfter history { endpoint := .deleteGopher, req := req, params := ps }
      = some { StatusCode := 204, Header := [], Body := "" } ∧
    (DeleteGopher { Request := req, Params := ps, Writer := ResponseWriter.reset }).Writer.body
      = "" ∧
    (DeleteGopher { Request := req, Params := ps, Writer := ResponseWriter.reset }).Writer.Written
      = false := by
  rw [responseAfter_eq]
  exact ⟨rfl, rfl, rfl⟩

/-- C9: GetGophers never fails: for every request, and whatever calls were served before,
it responds with HTTP 200 and the body `[]`, the empty JSON array, which is what the empty
slice marshals to and is not the `null` a nil slice marshals to. -/
theorem GetGophers_never_fails (history : List Call) (req : Request) (ps : List Param) :
    responseAfter history { endpoint := .getGophers, req := req, params := ps }
      = some { StatusCode := 200, Header := [("Content-Type", jsonContentType)], Body := "[]" } ∧
    (Slice.toValue Gopher.toValue (Slice.lit [])).marshal = "[]" ∧
    (Slice.toValue Gopher.toValue Slice.nil).marshal = "null" ∧
    (responseAfter history { endpoint := .getGophers, req := req, params := ps }).map
      Response.Body ≠ some "null" := by
  rw [responseAfter_eq]
  refine ⟨rfl, rfl, rfl, ?_⟩
  show (some "[]" : Option String) ≠ some "null"
  decide

/-- C10: each of the six handlers is request-independent: for any two requests, whatever
their path parameters, bodies and the calls served before them, the handler leaves the
same writer and the client gets the same response: 201 and the zero Gopher for
CreateGopher, 200 and the empty array for GetGophers, 200 and the zero Gopher for
GetGopherByID and UpdateGopher, 204 and no body for DeleteGopher, 200 and the status
object for HealthCheck. -/
theorem handlers_request_independent (e : Endpoint) (h1 h2 : List Call) (r1 r2 : Request)
    (p1 p2 : List Param) :
    responseAfter h1 { endpoint := e, req := r1, params := p1 }
      = responseAfter h2 { endpoint := e, req := r2, params := p2 } ∧
    (e.handler { Request := r1, Params := p1, Writer := ResponseWriter.reset }).Writer
      = (e.handler { Request := r2, Params := p2, Writer := ResponseWriter.reset }).Writer ∧
    (responseAfter h1 { endpoint := .createGopher, req := r1, params := p1 }).map
      (fun r => (r.StatusCode, r.Body)) = some (201, "\x7b\"id\":\"\",\"name\":\"\"\x7d") ∧
    (responseAfter h1 { endpoint := .getGophers, req := r1, params := p1 }).map
      (fun r => (r.StatusCode, r.Body)) = some (200, "[]") ∧
    (responseAfter h1 { endpoint := .getGopherByID, req := r1, params := p1 }).map
      (fun r => (r.StatusCode, r.Body)) = some (200, "\x7b\"id\":\"\",\"name\":\"\"\x7d") ∧
    (responseAfter h1 { endpoint := .updateGopher, req := r1, params := p1 }).map
      (fun r => (r.StatusCode, r.Body)) = some (200, "\x7b\"id\":\"\",\"name\":\"\"\x7d") ∧
    (responseAfter h1 { endpoint := .deleteGopher, req := r1, params := p1 }).map
      (fun r => (r.StatusCode, r.Body)) = some (204, "") ∧
    (responseAfter h1 { endpoint := .healthCheck, req := r1, params := p1 }).map
      (fun r => (r.StatusCode, r.Body)) = some (200, "\x7b\"status\":\"ok\"\x7d") ∧
    Gopher.zero.toValue.marshal = "\x7b\"id\":\"\",\"name\":\"\"\x7d" := by
  simp only [responseAfter_eq]
  refine ⟨?_, ?_, rfl, rfl, rfl, rfl, rfl, rfl, rfl⟩
  · cases e <;> rfl
  · cases e <;> rfl

end GoRestful
